import Mathlib

/-!
Verification of the crypto_crawler repository (phase_1/price_pulse.py,
phase_2/cmc_html_scraper.py, phase_2/cmc_json_scraper.py).

Shallow embedding conventions:
* Python numeric values (prices) are modelled as rationals.
* Python exceptions are an enumerated type; the `except` clause of the
  polling loop is the predicate `caught`.
* Time is measured in tenths of a second (the granularity of the chunked
  sleep in the success path of the loop).
* The shutdown flag set by the SIGINT handler is a Boolean function of
  discrete time or of the loop-iteration index, assumed monotone where the
  write-once nature of the flag matters.
-/

namespace CryptoCrawler

/-- Python exception classes relevant to price_pulse.py.
`requestException` covers requests.RequestException and all its subclasses
(timeouts, connection failures, HTTPError from raise_for_status). -/
inductive PyExc where
  | requestException
  | valueError
  | keyError
  | typeError
  deriving DecidableEq, Repr

/-- JSON values, the result of resp.json(). -/
inductive Json where
  | null
  | bool (b : Bool)
  | num (q : ℚ)
  | str (s : String)
  | arr (xs : List Json)
  | obj (kvs : List (String × Json))
  deriving Repr

/-- Python subscription `j[k]` with a string key: an object missing the key
raises KeyError; subscribing a string, number, boolean, null or array with
a string key raises TypeError. -/
def pyIndex (j : Json) (k : String) : Except PyExc Json :=
  match j with
  | .obj kvs =>
      match kvs.lookup k with
      | some v => .ok v
      | none => .error .keyError
  | _ => .error .typeError

/-- datetime.utcfromtimestamp: accepts int/float (and bool, an int
subclass); raises TypeError on any other argument type. -/
def utcfromtimestamp (j : Json) : Except PyExc ℚ :=
  match j with
  | .num q => .ok q
  | .bool b => .ok (if b then 1 else 0)
  | _ => .error .typeError

/-- Outcome of the HTTP GET performed inside fetch_price: either a network
failure (timeout / connection error, raising RequestException), or a
response with a status code and a body that either parses as JSON or does
not (`none`, in which case resp.json() raises a JSONDecodeError, which is a
ValueError subclass). -/
inductive HttpResult where
  | netFail
  | response (status : ℕ) (bodyJson : Option Json)

/-- Embedding of fetch_price (price_pulse.py lines 55-72).
resp.raise_for_status() raises HTTPError (a RequestException) for status
codes 400-599; then data["bitcoin"]["usd"] and
data["bitcoin"]["last_updated_at"] are extracted with Python subscription
semantics and the timestamp is converted with utcfromtimestamp.
The returned price is the raw JSON value, as in the source, which performs
no type check on it; the timestamp is returned as the epoch rational
(string formatting is an excluded I/O concern). -/
def fetch_price (r : HttpResult) : Except PyExc (Json × ℚ) :=
  match r with
  | .netFail => .error .requestException
  | .response status body =>
      if 400 ≤ status then .error .requestException
      else
        match body with
        | none => .error .valueError
        | some data => do
            let btc ← pyIndex data "bitcoin"
            let price ← pyIndex btc "usd"
            let btc2 ← pyIndex data "bitcoin"
            let ts ← pyIndex btc2 "last_updated_at"
            let dt ← utcfromtimestamp ts
            .ok (price, dt)

/-- The exception classes caught by the loop handler
`except (requests.RequestException, ValueError)` (price_pulse.py line 102).
KeyError and TypeError are not caught. -/
def caught : PyExc → Bool
  | .requestException => true
  | .valueError => true
  | .keyError => false
  | .typeError => false

/-- State of the polling loop in main (price_pulse.py lines 85-87):
price_window (deque of at most 10 prices, oldest first),
consecutive_failures, and backoff. -/
structure PollState where
  window : List ℚ
  consecutiveFailures : ℕ
  backoff : ℕ
  deriving DecidableEq, Repr

/-- Initial state: empty window, 0 consecutive failures, backoff 1. -/
def initState : PollState := ⟨[], 0, 1⟩

/-- deque(maxlen=10).append: appends at the right; when the deque already
holds 10 elements the leftmost (oldest) element is discarded. -/
def dequeAppend (w : List ℚ) (x : ℚ) : List ℚ :=
  if w.length < 10 then w ++ [x] else w.tail ++ [x]

/-- The conditional expression computing the SMA (price_pulse.py line 93):
sum(price_window) / len(price_window) if price_window else price. -/
def smaOf (w : List ℚ) (price : ℚ) : ℚ :=
  if w ≠ [] then w.sum / w.length else price

/-- Success branch of the loop body (price_pulse.py lines 91-97): append
the price to the window, compute the SMA that is printed, reset
consecutive_failures to 0 and backoff to 1. Returns the new state and the
printed SMA. -/
def successUpdate (s : PollState) (price : ℚ) : PollState × ℚ :=
  let w := dequeAppend s.window price
  let sma := smaOf w price
  (⟨w, 0, 1⟩, sma)

/-- Failure branch of the loop body (price_pulse.py lines 103-107):
increment consecutive_failures, sleep for the current backoff, then set
backoff to min(backoff * 2, 60). Returns the new state and the number of
seconds slept. The window is untouched. -/
def failureUpdate (s : PollState) : PollState × ℕ :=
  (⟨s.window, s.consecutiveFailures + 1, min (s.backoff * 2) 60⟩, s.backoff)

/-- The excessive-failure warning condition (price_pulse.py line 109):
`if consecutive_failures >= 5`. -/
def shouldWarn (s : PollState) : Prop := 5 ≤ s.consecutiveFailures

instance (s : PollState) : Decidable (shouldWarn s) :=
  inferInstanceAs (Decidable (5 ≤ s.consecutiveFailures))

/-- n consecutive failure branches starting from state s. -/
def iterFail (s : PollState) : ℕ → PollState
  | 0 => s
  | n + 1 => (failureUpdate (iterFail s n)).1

/-- Seconds slept at the (n+1)-st consecutive failure after state s. -/
def nthDelay (s : PollState) (n : ℕ) : ℕ := (failureUpdate (iterFail s n)).2

/-- State after a sequence of successful fetches starting from initState
(failures do not touch the window, so this also describes the window after
any interleaving of these successes with caught failures). -/
def stateAfter (vs : List ℚ) : PollState :=
  vs.foldl (fun s v => (successUpdate s v).1) initState

/-- The window contents after recording the values vs in order. -/
def windowAfter (vs : List ℚ) : List ℚ := (stateAfter vs).window

/-- Result of running the polling loop for a bounded number of iterations:
it observed the shutdown flag and reached sys.exit(0); it crashed on an
uncaught exception escaping the while loop; or it is still running when
the fuel runs out. Each constructor carries the number of fetch attempts
started. -/
inductive RunResult where
  | exit0 (fetchCount : ℕ)
  | crashed (e : PyExc) (fetchCount : ℕ)
  | running (fetchCount : ℕ)
  deriving DecidableEq, Repr

/-- Number of fetch attempts started during a run. -/
def fetchCountOf : RunResult → ℕ
  | .exit0 n => n
  | .crashed _ n => n
  | .running n => n

/-- The while loop of main (price_pulse.py lines 89-110), parametric over
the fetch outcomes (the SampleFetcher is an external collaborator):
sd i is the shutdown flag observed at the loop-condition check before
iteration i; fetches i is the outcome of the fetch attempt of iteration i,
already reduced to a price or an exception. On a caught exception the loop
continues with failureUpdate; an uncaught exception escapes the loop. -/
def run (sd : ℕ → Bool) (fetches : ℕ → Except PyExc ℚ) :
    ℕ → PollState → ℕ → ℕ → RunResult
  | 0, _, _, cnt => .running cnt
  | fuel + 1, s, i, cnt =>
      if sd i then .exit0 cnt
      else
        match fetches i with
        | .ok p => run sd fetches fuel (successUpdate s p).1 (i + 1) (cnt + 1)
        | .error e =>
            if caught e then run sd fetches fuel (failureUpdate s).1 (i + 1) (cnt + 1)
            else .crashed e (cnt + 1)

/-- The success-path wait (price_pulse.py lines 98-101): ten chunks; before
each chunk the shutdown flag is checked and the loop breaks if it is set,
otherwise time.sleep(0.1) elapses one tenth. sd t is the flag observed at
elapsed time t tenths; returns the elapsed time in tenths when the wait
returns. -/
def pollWaitGo (sd : ℕ → Bool) : ℕ → ℕ → ℕ
  | 0, t => t
  | n + 1, t => if sd t then t else pollWaitGo sd n (t + 1)

/-- Elapsed tenths of a second of the chunked success-path wait. -/
def pollWaitElapsed (sd : ℕ → Bool) : ℕ := pollWaitGo sd 10 0

/-- The failure-path wait (price_pulse.py line 106): a plain
time.sleep(backoff). The SIGINT handler only sets a flag and returns, so
per PEP 475 the sleep is resumed after the handler and always lasts the
full duration, whatever the shutdown flag does. Elapsed time in tenths. -/
def backoffWaitElapsed (_sd : ℕ → Bool) (backoffSeconds : ℕ) : ℕ :=
  10 * backoffSeconds

/-- A row of coin data as written by csv.DictWriter with the fieldnames
Rank, Name, Symbol, Price (USD), 24h % Change, Market Cap (USD), shared by
both phase_2 scrapers. -/
structure CoinRow where
  rank : String
  name : String
  symbol : String
  price : String
  change24h : String
  marketCap : String
  deriving DecidableEq, Repr

/-- The CSV header row written by writer.writeheader(). -/
def csvHeader : List String :=
  ["Rank", "Name", "Symbol", "Price (USD)", "24h % Change", "Market Cap (USD)"]

/-- One CSV data row for a coin, fieldname order. -/
def csvRow (c : CoinRow) : List String :=
  [c.rank, c.name, c.symbol, c.price, c.change24h, c.marketCap]

/-- File-system side effects of write_to_csv. -/
inductive FileOp where
  | makedirs
  | openTruncate (filename : String)
  deriving DecidableEq, Repr

/-- Embedding of write_to_csv (cmc_html_scraper.py lines 114-133 and the
identical cmc_json_scraper.py lines 67-84): on an empty list it logs and
returns before any file-system call, so no directory is created and the
output file is never opened or truncated; otherwise it creates the
directory, opens the file in "w" mode (truncating), and writes the header
row followed by one row per coin. Returns the file operations performed
and the file content written (none when no file was touched). -/
def write_to_csv (coins : List CoinRow) (filename : String) :
    List FileOp × Option (List (List String)) :=
  if coins = [] then ([], none)
  else ([.makedirs, .openTruncate filename],
        some (csvHeader :: coins.map csvRow))

/-! ### Helper lemmas -/

lemma stateAfter_window_foldl (vs : List ℚ) (s : PollState) :
    (vs.foldl (fun t v => (successUpdate t v).1) s).window =
      vs.foldl dequeAppend s.window := by
  induction vs generalizing s with
  | nil => rfl
  | cons v vs ih => simpa [successUpdate] using ih (successUpdate s v).1

lemma foldl_dequeAppend_eq (vs : List ℚ) :
    vs.foldl dequeAppend [] = vs.drop (vs.length - 10) := by
  induction vs using List.reverseRecOn with
  | nil => rfl
  | append_singleton ys x ih =>
      rw [List.foldl_append, List.foldl_cons, List.foldl_nil, ih]
      have hlen : (ys.drop (ys.length - 10)).length = ys.length - (ys.length - 10) :=
        List.length_drop _ _
      rw [dequeAppend]
      by_cases h : ys.length < 10
      · have h0 : ys.length - 10 = 0 := by omega
        have h1 : (ys ++ [x]).length - 10 = 0 := by
          rw [List.length_append, List.length_singleton]; omega
        rw [if_pos (by omega), h0, h1, List.drop_zero, List.drop_zero]
      · rw [if_neg (by omega), h0_eq ys x h]
  where
    h0_eq (ys : List ℚ) (x : ℚ) (h : ¬ ys.length < 10) :
        (ys.drop (ys.length - 10)).tail ++ [x] =
          (ys ++ [x]).drop ((ys ++ [x]).length - 10) := by
      rw [List.tail_drop, List.length_append, List.length_singleton,
        List.drop_append_of_le_length (by omega)]
      have : ys.length - 10 + 1 = ys.length + 1 - 10 := by omega
      rw [this]

lemma windowAfter_eq (vs : List ℚ) :
    windowAfter vs = vs.drop (vs.length - 10) := by
  rw [windowAfter, stateAfter, stateAfter_window_foldl]
  exact foldl_dequeAppend_eq vs

lemma windowAfter_length (vs : List ℚ) :
    (windowAfter vs).length = min vs.length 10 := by
  rw [windowAfter_eq, List.length_drop]; omega

lemma windowAfter_append (vs : List ℚ) (x : ℚ) :
    windowAfter (vs ++ [x]) = dequeAppend (windowAfter vs) x := by
  rw [windowAfter, windowAfter, stateAfter, stateAfter, stateAfter_window_foldl,
    stateAfter_window_foldl, List.foldl_append, List.foldl_cons, List.foldl_nil]

lemma iterFail_backoff (s : PollState) (h : s.backoff = 1) (n : ℕ) :
    (iterFail s n).backoff = min (2 ^ n) 60 := by
  induction n with
  | zero => simpa [iterFail]
  | succ n ih =>
      show (failureUpdate (iterFail s n)).1.backoff = _
      simp only [failureUpdate]
      rw [ih, pow_succ]
      generalize (2 : ℕ) ^ n = a
      omega

lemma iterFail_failures (s : PollState) (n : ℕ) :
    (iterFail s n).consecutiveFailures = s.consecutiveFailures + n := by
  induction n with
  | zero => rfl
  | succ n ih =>
      show (failureUpdate (iterFail s n)).1.consecutiveFailures = _
      simp only [failureUpdate]
      omega

lemma nthDelay_eq (s : PollState) (h : s.backoff = 1) (n : ℕ) :
    nthDelay s n = min (2 ^ n) 60 := by
  rw [nthDelay, failureUpdate]
  exact iterFail_backoff s h n

lemma run_all_failures (fuel : ℕ) :
    ∀ (t : PollState) (i cnt : ℕ),
      run (fun _ => false) (fun _ => .error .requestException) fuel t i cnt =
        .running (cnt + fuel) := by
  induction fuel with
  | zero => intro t i cnt; rfl
  | succ n ih =>
      intro t i cnt
      simp only [run, caught, Bool.false_eq_true, if_false, ih, RunResult.running.injEq,
        if_true]
      omega

lemma run_fetch_bound (sd : ℕ → Bool) (f : ℕ → Except PyExc ℚ) (k : ℕ)
    (hmono : ∀ a b, a ≤ b → sd a = true → sd b = true) (hk : sd k = true) :
    ∀ (fuel : ℕ) (s : PollState) (i cnt : ℕ),
      fetchCountOf (run sd f fuel s i cnt) ≤ cnt + (k - i) := by
  intro fuel
  induction fuel with
  | zero => intro s i cnt; simp [run, fetchCountOf]
  | succ n ih =>
      intro s i cnt
      rw [run]
      by_cases hsdi : sd i = true
      · rw [if_pos hsdi]; simp [fetchCountOf]
      · have hik : i < k := by
          by_contra hge
          exact hsdi (hmono k i (by omega) hk)
        rw [if_neg hsdi]
        cases hf : f i with
        | ok p =>
            dsimp only
            have := ih (successUpdate s p).1 (i + 1) (cnt + 1)
            omega
        | error e =>
            dsimp only
            by_cases hc : caught e = true
            · rw [if_pos hc]
              have := ih (failureUpdate s).1 (i + 1) (cnt + 1)
              omega
            · rw [if_neg hc]
              simp only [fetchCountOf]
              omega

lemma pollWaitGo_le_add (sd : ℕ → Bool) (n t : ℕ) :
    pollWaitGo sd n t ≤ t + n := by
  induction n generalizing t with
  | zero => simp [pollWaitGo]
  | succ n ih =>
      rw [pollWaitGo]
      cases hsd : sd t with
      | true => simp
      | false =>
          simp only [Bool.false_eq_true, if_false]
          have := ih (t + 1)
          omega

lemma pollWaitGo_le_of_shutdown (sd : ℕ → Bool) (k : ℕ)
    (hmono : ∀ a b, a ≤ b → sd a = true → sd b = true) (hk : sd k = true) :
    ∀ (n t : ℕ), pollWaitGo sd n t ≤ max t k := by
  intro n
  induction n with
  | zero => intro t; simp [pollWaitGo]
  | succ n ih =>
      intro t
      rw [pollWaitGo]
      cases hsd : sd t with
      | true => simp
      | false =>
          have htk : t < k := by
            by_contra hge
            have : sd t = true := hmono k t (by omega) hk
            rw [hsd] at this
            exact Bool.false_ne_true this
          simp only [Bool.false_eq_true, if_false]
          have := ih (t + 1)
          omega

/-! ### Claim theorems -/

/-- Claim C1: the claim states that every fetch failure, including a
response missing an expected field, is absorbed by the loop. The code
contradicts its own docstring here: fetch_price documents ValueError for
missing data, but a response whose "bitcoin" object lacks the "usd" field
raises KeyError, which the handler catching only RequestException and
ValueError does not absorb, so the loop crashes after that single fetch
instead of continuing. -/
theorem C1_missing_field_kills_loop :
    fetch_price (.response 200 (some (.obj [("bitcoin", .obj [])]))) =
      .error .keyError ∧
    caught .keyError = false ∧
    run (fun _ => false) (fun _ => .error .keyError) 5 initState 0 0 =
      .crashed .keyError 1 := by
  refine ⟨rfl, rfl, rfl⟩

/-- Claim C2, counterexample: with shutdown requested from time 0, the
backoff wait for a 60-second delay still lasts the full 600 tenths of a
second, not the claimed bounded ~100 ms (1 tenth); only the success-path
poll wait returns at once. -/
theorem C2_backoff_wait_ignores_shutdown :
    backoffWaitElapsed (fun _ => true) 60 = 600 ∧
    ¬ backoffWaitElapsed (fun _ => true) 60 ≤ 1 ∧
    pollWaitElapsed (fun _ => true) = 0 := by
  refine ⟨rfl, by decide, rfl⟩

/-- Claim C2, amended: the fixed poll-interval wait after a success is
interruptible — if shutdown is requested at tenth k it returns by tenth
min k 10 (at most one 100 ms chunk after the request) — but the backoff
wait after a failure is a plain sleep that always lasts its full duration
regardless of the shutdown flag. -/
theorem C2_poll_wait_interruptible (sd : ℕ → Bool) (k b : ℕ)
    (hmono : ∀ a c, a ≤ c → sd a = true → sd c = true) (hk : sd k = true) :
    pollWaitElapsed sd ≤ min k 10 ∧
    backoffWaitElapsed sd b = 10 * b := by
  refine ⟨?_, rfl⟩
  have h1 := pollWaitGo_le_add sd 10 0
  have h2 := pollWaitGo_le_of_shutdown sd k hmono hk 10 0
  rw [pollWaitElapsed]
  omega

/-- Witness for C2_poll_wait_interruptible at a concrete flag history. -/
theorem C2_poll_wait_interruptible_witness :
    pollWaitElapsed (fun _ => true) ≤ min 0 10 ∧
    backoffWaitElapsed (fun _ => true) 60 = 10 * 60 :=
  C2_poll_wait_interruptible (fun _ => true) 0 60 (fun _ _ _ h => h) rfl

/-- Claim C3: from the initial state and after any success, the delay slept
at the (n+1)-st consecutive failure is min (2 ^ n) 60, i.e. the sequence
1, 2, 4, 8, 16, 32, 60, 60, 60, ...; a success resets backoff to 1 so the
sequence restarts. -/
theorem C3_backoff_sequence (s : PollState) (p : ℚ) (n : ℕ) :
    nthDelay initState n = min (2 ^ n) 60 ∧
    nthDelay (successUpdate s p).1 n = min (2 ^ n) 60 ∧
    (List.range 9).map (nthDelay initState) = [1, 2, 4, 8, 16, 32, 60, 60, 60] := by
  refine ⟨nthDelay_eq initState rfl n, nthDelay_eq _ rfl n, by decide⟩

/-- Claim C4: the rolling average printed after recording value x on top of
the previously recorded values vs is the arithmetic mean of exactly the
last min (count, 10) recorded values in arrival order. -/
theorem C4_sma_is_mean_of_last_ten (vs : List ℚ) (x : ℚ) :
    (successUpdate (stateAfter vs) x).2 =
      ((vs ++ [x]).drop (vs.length + 1 - 10)).sum /
        ((min (vs.length + 1) 10 : ℕ) : ℚ) := by
  have hw : dequeAppend (stateAfter vs).window x = windowAfter (vs ++ [x]) :=
    (windowAfter_append vs x).symm
  have hlen : (windowAfter (vs ++ [x])).length = min (vs.length + 1) 10 := by
    rw [windowAfter_length, List.length_append, List.length_singleton]
  have hne : windowAfter (vs ++ [x]) ≠ [] := by
    apply List.ne_nil_of_length_pos
    rw [hlen]
    omega
  show smaOf (dequeAppend (stateAfter vs).window x) x = _
  rw [hw]
  unfold smaOf
  rw [if_pos hne, hlen, windowAfter_eq, List.length_append, List.length_singleton]

/-- Claim C5: the window length never exceeds 10; appending at capacity
evicts the oldest element (strict FIFO); after 11 successive records the
window holds exactly 10 samples and the first-recorded sample is gone. -/
theorem C5_window_capacity (vs w : List ℚ) (x : ℚ) :
    (windowAfter vs).length ≤ 10 ∧
    (w.length = 10 → dequeAppend w x = w.tail ++ [x]) ∧
    (vs.length = 11 → (windowAfter vs).length = 10 ∧ windowAfter vs = vs.tail) := by
  refine ⟨?_, ?_, ?_⟩
  · rw [windowAfter_length]; omega
  · intro h
    unfold dequeAppend
    rw [if_neg (by omega)]
  · intro h
    constructor
    · rw [windowAfter_length, h]
      omega
    · rw [windowAfter_eq, h]
      norm_num

/-- Witness for C5_window_capacity on an 11-element record sequence. -/
theorem C5_window_capacity_witness :
    dequeAppend [0, 1, 2, 3, 4, 5, 6, 7, 8, 9] 11 = [1, 2, 3, 4, 5, 6, 7, 8, 9, 11] ∧
    (windowAfter [0, 1, 2, 3, 4, 5, 6, 7, 8, 9, 10]).length = 10 ∧
    windowAfter [0, 1, 2, 3, 4, 5, 6, 7, 8, 9, 10] = [1, 2, 3, 4, 5, 6, 7, 8, 9, 10] := by
  obtain ⟨-, h2, h3⟩ :=
    C5_window_capacity [0, 1, 2, 3, 4, 5, 6, 7, 8, 9, 10] [0, 1, 2, 3, 4, 5, 6, 7, 8, 9] 11
  obtain ⟨h3a, h3b⟩ := h3 rfl
  refine ⟨?_, h3a, ?_⟩
  · rw [h2 rfl]
    rfl
  · rw [h3b]
    rfl

/-- Claim C6: starting from a reset state, the warning condition holds
after the n-th consecutive failure exactly when 5 ≤ n (so it fires on the
5th and every later consecutive failure), the failure count after n
failures is n, any success resets the count to 0 and clears the warning,
and a loop fed only caught failures keeps running for any number of
iterations — reaching the threshold never terminates it. -/
theorem C6_warn_threshold (s t : PollState) (n : ℕ) (p : ℚ) (fuel i cnt : ℕ)
    (h : s.consecutiveFailures = 0) :
    (shouldWarn (iterFail s n) ↔ 5 ≤ n) ∧
    (iterFail s n).consecutiveFailures = n ∧
    ¬ shouldWarn (successUpdate t p).1 ∧
    (successUpdate t p).1.consecutiveFailures = 0 ∧
    run (fun _ => false) (fun _ => .error .requestException) fuel t i cnt =
      .running (cnt + fuel) := by
  have hcf : (iterFail s n).consecutiveFailures = n := by
    rw [iterFail_failures, h]
    omega
  refine ⟨?_, hcf, ?_, rfl, run_all_failures fuel t i cnt⟩
  · unfold shouldWarn
    rw [hcf]
  · show ¬ (5 ≤ (0 : ℕ))
    omega

/-- Witness for C6_warn_threshold at the 5th failure from the start. -/
theorem C6_warn_threshold_witness :
    (shouldWarn (iterFail initState 5) ↔ 5 ≤ 5) ∧
    (iterFail initState 5).consecutiveFailures = 5 ∧
    ¬ shouldWarn (successUpdate initState 0).1 ∧
    (successUpdate initState 0).1.consecutiveFailures = 0 ∧
    run (fun _ => false) (fun _ => .error .requestException) 7 initState 0 0 =
      .running (0 + 7) :=
  C6_warn_threshold initState initState 5 0 7 0 0 rfl

/-- Claim C7: if the shutdown flag is set at the first loop check, the run
exits via sys.exit(0) with zero fetch attempts; and for a write-once flag
set by check k, no fetch attempt is started at or after check k, so the
total number of fetch attempts from check i onward is at most k - i. -/
theorem C7_shutdown_stops_fetches (sd : ℕ → Bool) (f : ℕ → Except PyExc ℚ)
    (fuel : ℕ) (s : PollState) (i cnt k : ℕ)
    (hmono : ∀ a b, a ≤ b → sd a = true → sd b = true) (hk : sd k = true) :
    (sd 0 = true → run sd f (fuel + 1) s 0 0 = .exit0 0) ∧
    fetchCountOf (run sd f fuel s i cnt) ≤ cnt + (k - i) := by
  constructor
  · intro h0
    rw [run, if_pos h0]
  · exact run_fetch_bound sd f k hmono hk fuel s i cnt

/-- Witness for C7_shutdown_stops_fetches with the flag set from the
start. -/
theorem C7_shutdown_stops_fetches_witness :
    ((fun _ => true) 0 = true →
      run (fun _ => true) (fun _ => Except.ok 0) (3 + 1) initState 0 0 = .exit0 0) ∧
    fetchCountOf (run (fun _ => true) (fun _ => Except.ok 0) 3 initState 0 0) ≤
      0 + (0 - 0) :=
  C7_shutdown_stops_fetches (fun _ => true) (fun _ => Except.ok 0) 3 initState 0 0 0
    (fun _ _ _ h => h) rfl

/-- Claim C8: a failure branch never touches the window, and the scenario
successes 100, 200, 300, one failure, then success 400 prints the average
250 of exactly the four recorded samples. -/
theorem C8_failure_leaves_window (s : PollState) :
    (failureUpdate s).1.window = s.window ∧
    (successUpdate (failureUpdate (stateAfter [100, 200, 300])).1 400).2 = 250 ∧
    (successUpdate (failureUpdate (stateAfter [100, 200, 300])).1 400).1.window =
      [100, 200, 300, 400] := by
  refine ⟨rfl, ?_, ?_⟩
  · norm_num [stateAfter, initState, successUpdate, failureUpdate, dequeAppend, smaOf]
    exact List.cons_ne_nil _ _
  · norm_num [stateAfter, initState, successUpdate, failureUpdate, dequeAppend, smaOf]

/-- Claim C9: the success path appends the sample to the window before the
average is taken, so the window at the division is non-empty (positive
length, no division by zero) and the printed SMA always comes from the
division branch — the empty-window fallback of the conditional expression
is unreachable. -/
theorem C9_sma_no_empty_fallback (s : PollState) (p : ℚ) :
    dequeAppend s.window p ≠ [] ∧
    0 < (dequeAppend s.window p).length ∧
    (successUpdate s p).2 =
      (dequeAppend s.window p).sum / ((dequeAppend s.window p).length : ℚ) := by
  have hpos : 0 < (dequeAppend s.window p).length := by
    unfold dequeAppend
    split <;> simp
  have hne : dequeAppend s.window p ≠ [] := List.ne_nil_of_length_pos hpos
  refine ⟨hne, hpos, ?_⟩
  show smaOf (dequeAppend s.window p) p = _
  unfold smaOf
  rw [if_pos hne]

/-- Claim C10: write_to_csv on an empty list performs no file-system
operation at all (the existing output file is neither created, opened nor
truncated) and writes nothing; on a non-empty list it creates the
directory, opens the file for truncating write, and writes the header row
plus exactly one row per input record. -/
theorem C10_write_to_csv_empty_guard (coins : List CoinRow) (fn : String)
    (h : coins ≠ []) :
    write_to_csv [] fn = ([], none) ∧
    (write_to_csv coins fn).1 = [.makedirs, .openTruncate fn] ∧
    (write_to_csv coins fn).2 = some (csvHeader :: coins.map csvRow) ∧
    (csvHeader :: coins.map csvRow).length = 1 + coins.length := by
  refine ⟨rfl, ?_, ?_, ?_⟩
  · unfold write_to_csv
    rw [if_neg h]
  · unfold write_to_csv
    rw [if_neg h]
  · rw [List.length_cons, List.length_map]
    omega

/-- Witness for C10_write_to_csv_empty_guard on a one-coin list. -/
theorem C10_write_to_csv_empty_guard_witness :
    write_to_csv [] "data/cmc_top100_html.csv" = ([], none) ∧
    (write_to_csv [⟨"1", "Bitcoin", "BTC", "50000", "1.5", "900000000"⟩]
        "data/cmc_top100_html.csv").1 =
      [.makedirs, .openTruncate "data/cmc_top100_html.csv"] ∧
    (write_to_csv [⟨"1", "Bitcoin", "BTC", "50000", "1.5", "900000000"⟩]
        "data/cmc_top100_html.csv").2 =
      some (csvHeader ::
        ([⟨"1", "Bitcoin", "BTC", "50000", "1.5", "900000000"⟩] : List CoinRow).map csvRow) ∧
    (csvHeader ::
        ([⟨"1", "Bitcoin", "BTC", "50000", "1.5", "900000000"⟩] : List CoinRow).map csvRow).length =
      1 + ([⟨"1", "Bitcoin", "BTC", "50000", "1.5", "900000000"⟩] : List CoinRow).length :=
  C10_write_to_csv_empty_guard [⟨"1", "Bitcoin", "BTC", "50000", "1.5", "900000000"⟩]
    "data/cmc_top100_html.csv" (List.cons_ne_nil _ _)

end CryptoCrawler
